import Mathlib

/-!
A shallow embedding of `src/pudu_client.py` (class `PuduClient`): the
request-signing engine of a Pudu Cloud client.  Python strings are Lean
`String`s, byte strings are `List Nat` with every element below 256,
dictionaries are association lists in insertion order, and exceptions are
modelled with `Except`/`Option`.  The wall clock (`datetime.utcnow()`)
is modelled as an explicit timestamp argument, and the HTTP response is
an explicit oracle argument, so every function is pure and executable.
-/

set_option maxRecDepth 10000

/-! ## Bit-level helpers (32-bit words as `Nat` reduced mod 2^32) -/

/-- 32-bit mask. -/
def mask32 : Nat := 4294967295

/-- Addition modulo 2^32, as performed on Python ints masked to 32 bits. -/
def add32 (a b : Nat) : Nat := (a + b) % 4294967296

/-- Bitwise complement within 32 bits. -/
def not32 (a : Nat) : Nat := Nat.xor a mask32

/-- Left-rotation of a 32-bit word by `n` places (0 < n < 32). -/
def rotl32 (x n : Nat) : Nat :=
  Nat.lor (Nat.land (Nat.shiftLeft x n) mask32) (Nat.shiftRight x (32 - n))

/-- The four bytes of a 32-bit word in little-endian order. -/
def le4 (x : Nat) : List Nat :=
  [Nat.land x 255, Nat.land (Nat.shiftRight x 8) 255,
   Nat.land (Nat.shiftRight x 16) 255, Nat.land (Nat.shiftRight x 24) 255]

/-- The four bytes of a 32-bit word in big-endian order. -/
def be4 (x : Nat) : List Nat :=
  [Nat.land (Nat.shiftRight x 24) 255, Nat.land (Nat.shiftRight x 16) 255,
   Nat.land (Nat.shiftRight x 8) 255, Nat.land x 255]

/-- The eight bytes of a 64-bit value in little-endian order. -/
def le8 (x : Nat) : List Nat :=
  le4 (Nat.land x mask32) ++ le4 (Nat.land (Nat.shiftRight x 32) mask32)

/-- The eight bytes of a 64-bit value in big-endian order. -/
def be8 (x : Nat) : List Nat :=
  be4 (Nat.land (Nat.shiftRight x 32) mask32) ++ be4 (Nat.land x mask32)

/-- A word from four little-endian bytes. -/
def wordLE (b0 b1 b2 b3 : Nat) : Nat :=
  b0 + b1 * 256 + b2 * 65536 + b3 * 16777216

/-- A word from four big-endian bytes. -/
def wordBE (b0 b1 b2 b3 : Nat) : Nat :=
  b3 + b2 * 256 + b1 * 65536 + b0 * 16777216

/-- Lowercase hex digit for a nibble, as in Python's `%x` formatting. -/
def hexDigitChar (n : Nat) : Char :=
  if n < 10 then Char.ofNat (48 + n) else Char.ofNat (87 + n)

/-- Two lowercase hex characters for one byte, as in `hexdigest()`. -/
def byteHexChars (b : Nat) : List Char :=
  [hexDigitChar (b / 16 % 16), hexDigitChar (b % 16)]

/-- Lowercase hex rendering of a byte string, as Python's `hexdigest()`. -/
def bytesToHex (bs : List Nat) : String :=
  ⟨bs.flatMap byteHexChars⟩

/-! ## UTF-8 encoding (Python `str.encode("utf-8")`) -/

/-- The UTF-8 bytes of one character. -/
def charUtf8 (c : Char) : List Nat :=
  let n := c.toNat
  if n < 128 then [n]
  else if n < 2048 then
    [192 + n / 64, 128 + n % 64]
  else if n < 65536 then
    [224 + n / 4096, 128 + n / 64 % 64, 128 + n % 64]
  else
    [240 + n / 262144, 128 + n / 4096 % 64, 128 + n / 64 % 64, 128 + n % 64]

/-- UTF-8 bytes of a string: models Python `s.encode("utf-8")`. -/
def strBytes (s : String) : List Nat :=
  s.data.flatMap charUtf8

/-! ## Base64 (Python `base64.b64encode`, standard alphabet, `=` padding) -/

/-- The standard base64 alphabet as a character list. -/
def b64Alphabet : List Char :=
  ("ABCDEFGHIJKLMNOPQRSTUVWXYZabcdefghijklmnopqrstuvwxyz0123456789+/").data

/-- Character for a 6-bit group. -/
def b64Char (n : Nat) : Char := b64Alphabet.getD n ('A')

/-- Base64 characters of a byte string, processing 3-byte groups. -/
def b64Chars : List Nat → List Char
  | [] => []
  | [b1] =>
      [b64Char (b1 / 4), b64Char (b1 % 4 * 16), '=', '=']
  | [b1, b2] =>
      [b64Char (b1 / 4), b64Char (b1 % 4 * 16 + b2 / 16), b64Char (b2 % 16 * 4), '=']
  | b1 :: b2 :: b3 :: rest =>
      b64Char (b1 / 4) :: b64Char (b1 % 4 * 16 + b2 / 16) ::
      b64Char (b2 % 16 * 4 + b3 / 64) :: b64Char (b3 % 64) :: b64Chars rest

/-- Models Python `base64.b64encode(bs).decode("utf-8")`. -/
def b64Encode (bs : List Nat) : String := ⟨b64Chars bs⟩

/-! ## MD5 (Python `hashlib.md5`) -/

/-- The 64 MD5 sine-derived round constants. -/
def md5K : List Nat :=
  [3614090360, 3905402710, 606105819, 3250441966, 4118548399, 1200080426,
   2821735955, 4249261313, 1770035416, 2336552879, 4294925233, 2304563134,
   1804603682, 4254626195, 2792965006, 1236535329, 4129170786, 3225465664,
   643717713, 3921069994, 3593408605, 38016083, 3634488961, 3889429448,
   568446438, 3275163606, 4107603335, 1163531501, 2850285829, 4243563512,
   1735328473, 2368359562, 4294588738, 2272392833, 1839030562, 4259657740,
   2763975236, 1272893353, 4139469664, 3200236656, 681279174, 3936430074,
   3572445317, 76029189, 3654602809, 3873151461, 530742520, 3299628645,
   4096336452, 1126891415, 2878612391, 4237533241, 1700485571, 2399980690,
   4293915773, 2240044497, 1873313359, 4264355552, 2734768916, 1309151649,
   4149444226, 3174756917, 718787259, 3951481745]

/-- The 64 MD5 per-round left-rotation amounts. -/
def md5S : List Nat :=
  [7, 12, 17, 22, 7, 12, 17, 22, 7, 12, 17, 22, 7, 12, 17, 22,
   5, 9, 14, 20, 5, 9, 14, 20, 5, 9, 14, 20, 5, 9, 14, 20,
   4, 11, 16, 23, 4, 11, 16, 23, 4, 11, 16, 23, 4, 11, 16, 23,
   6, 10, 15, 21, 6, 10, 15, 21, 6, 10, 15, 21, 6, 10, 15, 21]

/-- MD5 padding: append 0x80, zero-fill to 56 mod 64, append the bit
length as eight little-endian bytes. -/
def md5Pad (msg : List Nat) : List Nat :=
  let len := msg.length
  let zeros := (119 - len % 64) % 64
  msg ++ (128 :: List.replicate zeros 0) ++ le8 (len * 8 % 18446744073709551616)

/-- The 16 little-endian message words of one 64-byte block. -/
def blockWords (blk : List Nat) : List Nat :=
  (List.range 16).map fun i =>
    wordLE (blk.getD (4 * i) 0) (blk.getD (4 * i + 1) 0)
           (blk.getD (4 * i + 2) 0) (blk.getD (4 * i + 3) 0)

/-- One MD5 round, round index `i`, state `(a, b, c, d)`. -/
def md5Round (m : List Nat) (st : Nat × Nat × Nat × Nat) (i : Nat) :
    Nat × Nat × Nat × Nat :=
  let a := st.1; let b := st.2.1; let c := st.2.2.1; let d := st.2.2.2
  let f :=
    if i < 16 then Nat.lor (Nat.land b c) (Nat.land (not32 b) d)
    else if i < 32 then Nat.lor (Nat.land d b) (Nat.land (not32 d) c)
    else if i < 48 then Nat.xor b (Nat.xor c d)
    else Nat.xor c (Nat.lor b (not32 d))
  let g :=
    if i < 16 then i
    else if i < 32 then (5 * i + 1) % 16
    else if i < 48 then (3 * i + 5) % 16
    else 7 * i % 16
  let tmp := add32 (add32 (add32 f a) (md5K.getD i 0)) (m.getD g 0)
  (d, add32 b (rotl32 tmp (md5S.getD i 0)), b, c)

/-- MD5 compression of one 64-byte block into the running state. -/
def md5Block (st : Nat × Nat × Nat × Nat) (blk : List Nat) :
    Nat × Nat × Nat × Nat :=
  let m := blockWords blk
  let r := (List.range 64).foldl (md5Round m) st
  (add32 st.1 r.1, add32 st.2.1 r.2.1, add32 st.2.2.1 r.2.2.1,
   add32 st.2.2.2 r.2.2.2)

/-- Split a byte string into 64-byte blocks (fuel-driven for structural
recursion; fuel is the list length, enough for every block). -/
def chunk64 (fuel : Nat) (l : List Nat) : List (List Nat) :=
  match fuel, l with
  | 0, _ => []
  | _, [] => []
  | f + 1, l => l.take 64 :: chunk64 f (l.drop 64)

/-- The 16 raw MD5 digest bytes of a byte string. -/
def md5Bytes (msg : List Nat) : List Nat :=
  let padded := md5Pad msg
  let st := (chunk64 padded.length padded).foldl md5Block
    (1732584193, 4023233417, 2562383102, 271733878)
  le4 st.1 ++ le4 st.2.1 ++ le4 st.2.2.1 ++ le4 st.2.2.2

/-- Models Python `hashlib.md5(msg).hexdigest()`: lowercase hex. -/
def md5Hex (msg : List Nat) : String := bytesToHex (md5Bytes msg)

/-! ## SHA-1 (Python `hashlib.sha1`) and HMAC-SHA1 (Python `hmac.new`) -/

/-- SHA-1 padding: append 0x80, zero-fill to 56 mod 64, append the bit
length as eight big-endian bytes. -/
def sha1Pad (msg : List Nat) : List Nat :=
  let len := msg.length
  let zeros := (119 - len % 64) % 64
  msg ++ (128 :: List.replicate zeros 0) ++ be8 (len * 8 % 18446744073709551616)

/-- The 16 big-endian message words of one 64-byte block. -/
def blockWordsBE (blk : List Nat) : List Nat :=
  (List.range 16).map fun i =>
    wordBE (blk.getD (4 * i) 0) (blk.getD (4 * i + 1) 0)
           (blk.getD (4 * i + 2) 0) (blk.getD (4 * i + 3) 0)

/-- Extend 16 schedule words to 80 (fuel-driven structural recursion). -/
def sha1Extend (fuel : Nat) (w : List Nat) : List Nat :=
  match fuel with
  | 0 => w
  | f + 1 =>
    if w.length ≥ 80 then w
    else
      let n := w.length
      let x := Nat.xor (w.getD (n - 3) 0)
        (Nat.xor (w.getD (n - 8) 0)
          (Nat.xor (w.getD (n - 14) 0) (w.getD (n - 16) 0)))
      sha1Extend f (w ++ [rotl32 x 1])

/-- One SHA-1 round, round index `t`, state `(a, b, c, d, e)`. -/
def sha1Round (w : List Nat) (st : Nat × Nat × Nat × Nat × Nat) (t : Nat) :
    Nat × Nat × Nat × Nat × Nat :=
  let a := st.1; let b := st.2.1; let c := st.2.2.1
  let d := st.2.2.2.1; let e := st.2.2.2.2
  let f :=
    if t < 20 then Nat.lor (Nat.land b c) (Nat.land (not32 b) d)
    else if t < 40 then Nat.xor b (Nat.xor c d)
    else if t < 60 then
      Nat.lor (Nat.land b c) (Nat.lor (Nat.land b d) (Nat.land c d))
    else Nat.xor b (Nat.xor c d)
  let k :=
    if t < 20 then 1518500249
    else if t < 40 then 1859775393
    else if t < 60 then 2400959708
    else 3395469782
  let tmp := add32 (add32 (add32 (add32 (rotl32 a 5) f) e) k) (w.getD t 0)
  (tmp, a, rotl32 b 30, c, d)

/-- SHA-1 compression of one 64-byte block into the running state. -/
def sha1Block (st : Nat × Nat × Nat × Nat × Nat) (blk : List Nat) :
    Nat × Nat × Nat × Nat × Nat :=
  let w := sha1Extend 64 (blockWordsBE blk)
  let r := (List.range 80).foldl (sha1Round w) st
  (add32 st.1 r.1, add32 st.2.1 r.2.1, add32 st.2.2.1 r.2.2.1,
   add32 st.2.2.2.1 r.2.2.2.1, add32 st.2.2.2.2 r.2.2.2.2)

/-- The 20 raw SHA-1 digest bytes of a byte string. -/
def sha1Bytes (msg : List Nat) : List Nat :=
  let padded := sha1Pad msg
  let st := (chunk64 padded.length padded).foldl sha1Block
    (1732584193, 4023233417, 2562383102, 271733878, 3285377520)
  be4 st.1 ++ be4 st.2.1 ++ be4 st.2.2.1 ++ be4 st.2.2.2.1 ++ be4 st.2.2.2.2

/-- Models Python `hmac.new(key, msg, hashlib.sha1).digest()`:
HMAC with SHA-1, block size 64 bytes. -/
def hmacSha1 (key msg : List Nat) : List Nat :=
  let k0 := if key.length > 64 then sha1Bytes key else key
  let k := k0 ++ List.replicate (64 - k0.length) 0
  let ipad := k.map (Nat.xor 54)
  let opad := k.map (Nat.xor 92)
  sha1Bytes (opad ++ sha1Bytes (ipad ++ msg))

/-! ## UTF-8 decoding with U+FFFD replacement
(Python `bytes.decode("utf-8", errors="replace")`: each maximal invalid
subpart is replaced by one U+FFFD, per the Unicode substitution rule
CPython implements). -/

/-- The replacement character U+FFFD. -/
def replChar : Char := Char.ofNat 65533

/-- Decode a UTF-8 byte string, substituting U+FFFD for each maximal
invalid subpart, as CPython's `errors="replace"` handler does.  The
fuel argument only drives structural recursion: every step consumes at
least one byte, so the byte count is always enough fuel. -/
def utf8DecodeReplaceF : Nat → List Nat → List Char
  | 0, _ => []
  | _, [] => []
  | f + 1, b :: rest =>
    if b < 128 then Char.ofNat b :: utf8DecodeReplaceF f rest
    else if 194 ≤ b ∧ b ≤ 223 then
      match rest with
      | c1 :: rest2 =>
        if 128 ≤ c1 ∧ c1 ≤ 191 then
          Char.ofNat ((b - 192) * 64 + (c1 - 128)) :: utf8DecodeReplaceF f rest2
        else replChar :: utf8DecodeReplaceF f rest
      | [] => [replChar]
    else if 224 ≤ b ∧ b ≤ 239 then
      match rest with
      | c1 :: rest2 =>
        let lo := if b = 224 then 160 else 128
        let hi := if b = 237 then 159 else 191
        if lo ≤ c1 ∧ c1 ≤ hi then
          match rest2 with
          | c2 :: rest3 =>
            if 128 ≤ c2 ∧ c2 ≤ 191 then
              Char.ofNat ((b - 224) * 4096 + (c1 - 128) * 64 + (c2 - 128)) ::
                utf8DecodeReplaceF f rest3
            else replChar :: utf8DecodeReplaceF f rest2
          | [] => [replChar]
        else replChar :: utf8DecodeReplaceF f rest
      | [] => [replChar]
    else if 240 ≤ b ∧ b ≤ 244 then
      match rest with
      | c1 :: rest2 =>
        let lo := if b = 240 then 144 else 128
        let hi := if b = 244 then 143 else 191
        if lo ≤ c1 ∧ c1 ≤ hi then
          match rest2 with
          | c2 :: rest3 =>
            if 128 ≤ c2 ∧ c2 ≤ 191 then
              match rest3 with
              | c3 :: rest4 =>
                if 128 ≤ c3 ∧ c3 ≤ 191 then
                  Char.ofNat ((b - 240) * 262144 + (c1 - 128) * 4096 +
                    (c2 - 128) * 64 + (c3 - 128)) :: utf8DecodeReplaceF f rest4
                else replChar :: utf8DecodeReplaceF f rest3
              | [] => [replChar]
            else replChar :: utf8DecodeReplaceF f rest2
          | [] => [replChar]
        else replChar :: utf8DecodeReplaceF f rest
      | [] => [replChar]
    else replChar :: utf8DecodeReplaceF f rest

/-- `utf8DecodeReplaceF` with its own length as fuel. -/
def utf8DecodeReplace (bs : List Nat) : List Char :=
  utf8DecodeReplaceF bs.length bs

/-! ## Percent-decoding (Python `urllib.parse.unquote`) -/

/-- An ASCII byte that is a hex digit. -/
def isHexByte (b : Nat) : Bool :=
  (48 ≤ b && b ≤ 57) || (97 ≤ b && b ≤ 102) || (65 ≤ b && b ≤ 70)

/-- Value of an ASCII hex-digit byte. -/
def hexByteVal (b : Nat) : Nat :=
  if b ≤ 57 then b - 48 else if 97 ≤ b then b - 87 else b - 55

/-- Replace each `%XX` hex escape by its byte, leaving a `%` not followed
by two hex digits literal, as CPython's `unquote_to_bytes` does.  Fuel
only drives structural recursion; each step consumes at least one byte. -/
def percentDecodeBytesF : Nat → List Nat → List Nat
  | 0, _ => []
  | _, [] => []
  | f + 1, b :: rest =>
    if b = 37 then
      match rest with
      | h1 :: h2 :: rest2 =>
        if isHexByte h1 && isHexByte h2 then
          (hexByteVal h1 * 16 + hexByteVal h2) :: percentDecodeBytesF f rest2
        else 37 :: percentDecodeBytesF f rest
      | _ => 37 :: percentDecodeBytesF f rest
    else b :: percentDecodeBytesF f rest

/-- `percentDecodeBytesF` with its own length as fuel. -/
def percentDecodeBytes (bs : List Nat) : List Nat :=
  percentDecodeBytesF bs.length bs

/-- Models `urllib.parse.unquote(s)` with its default utf-8 encoding and
`errors="replace"`: decode `%XX` escapes over the UTF-8 bytes of `s` and
re-decode the resulting byte string. -/
def pyUnquote (s : String) : String :=
  ⟨utf8DecodeReplace (percentDecodeBytes (strBytes s))⟩

/-! ## Query parsing (Python `urllib.parse.parse_qs(qs, keep_blank_values=True)`) -/

/-- Split a character list at every occurrence of `sep`, as Python
`str.split(sep)` (so the empty string yields one empty field). -/
def pySplitAll (sep : Char) : List Char → List (List Char)
  | [] => [[]]
  | c :: rest =>
    if c = sep then [] :: pySplitAll sep rest
    else
      match pySplitAll sep rest with
      | [] => [[c]]
      | g :: gs => (c :: g) :: gs

/-- Split at the first occurrence of `sep` only, as Python
`str.split(sep, 1)`: `none` when `sep` does not occur. -/
def splitOnceChar (sep : Char) : List Char → Option (List Char × List Char)
  | [] => none
  | c :: rest =>
    if c = sep then some ([], rest)
    else
      match splitOnceChar sep rest with
      | some (a, b) => some (c :: a, b)
      | none => none

/-- Models `'+'`-to-space replacement, `nv.replace('+', ' ')`. -/
def plusToSpace (l : List Char) : List Char :=
  l.map fun c => if c = '+' then ' ' else c

/-- One `name=value` field of `parse_qsl` with `keep_blank_values=True`:
empty fields are skipped; a field without `=` gets a blank value; name
and value get `+`→space then percent-decoding. -/
def qslPair (nv : List Char) : Option (String × String) :=
  if nv = [] then none
  else
    let p :=
      match splitOnceChar '=' nv with
      | some (a, b) => (a, b)
      | none => (nv, [])
    some (pyUnquote ⟨plusToSpace p.1⟩, pyUnquote ⟨plusToSpace p.2⟩)

/-- Models `urllib.parse.parse_qsl(qs, keep_blank_values=True)` with the
default `&` separator. -/
def parseQsl (qs : String) : List (String × String) :=
  (pySplitAll '&' qs.data).filterMap qslPair

/-- Append `v` to the value list of key `k`, or add a new key at the end:
dict insertion-order aggregation as in `parse_qs`. -/
def multiInsert (k v : String) : List (String × List String) → List (String × List String)
  | [] => [(k, [v])]
  | (k0, vs) :: rest =>
    if k0 = k then (k0, vs ++ [v]) :: rest else (k0, vs) :: multiInsert k v rest

/-- Models `urllib.parse.parse_qs(qs, keep_blank_values=True)`: an
insertion-ordered multimap from keys to their value lists. -/
def parseQs (qs : String) : List (String × List String) :=
  (parseQsl qs).foldl (fun acc kv => multiInsert kv.1 kv.2 acc) []

/-- The value list of key `k` in the multimap, `query_dict[key]`. -/
def multiLookup (m : List (String × List String)) (k : String) : List String :=
  match m.find? (fun kv => kv.1 == k) with
  | some kv => kv.2
  | none => []

/-! ## Key sorting (Python `sorted` on strings: codepoint-lexicographic) -/

/-- Strict codepoint-lexicographic order on character lists, the order
Python `<` uses on strings. -/
def strLtChars : List Char → List Char → Bool
  | [], [] => false
  | [], _ :: _ => true
  | _ :: _, [] => false
  | a :: as, b :: bs =>
    if a.toNat < b.toNat then true
    else if b.toNat < a.toNat then false
    else strLtChars as bs

/-- Non-strict codepoint-lexicographic order on strings. -/
def pyStrLe (a b : String) : Bool := !(strLtChars b.data a.data)

/-- Insert into a `pyStrLe`-sorted list, keeping it sorted. -/
def insertSortedKey (x : String) : List String → List String
  | [] => [x]
  | y :: ys => if pyStrLe x y then x :: y :: ys else y :: insertSortedKey x ys

/-- Insertion sort by `pyStrLe`: models Python `sorted(...)` on the
(distinct) keys of a dict. -/
def sortKeys (l : List String) : List String := l.foldr insertSortedKey []

/-! ## Query normalization (`PuduClient._normalize_query`) -/

/-- Models `PuduClient._normalize_query` (src/pudu_client.py, lines
377-400): parse with `parse_qs(query, keep_blank_values=True)`, iterate
keys in sorted order, keep non-blank values comma-joined as `key=v1,v2`,
emit a bare `key` when every value was blank, join entries with `&`, and
return `""` for an empty query. -/
def normalizeQuery (query : String) : String :=
  if query = ("") then ("")
  else
    let queryDict := parseQs query
    let parts := (sortKeys (queryDict.map Prod.fst)).map fun key =>
      let values := (multiLookup queryDict key).filter fun v => !(v == (""))
      if !values.isEmpty then key ++ ("=") ++ String.intercalate (",") values
      else key
    String.intercalate ("&") parts

/-- The `QueryCanonicalizer.normalize` contract as worded in the spec:
parse the query into a multimap preserving all values per key; for each
key drop blank values; if non-blank values remain, join them with commas
in their original relative order and emit `key=v1,v2,...`, otherwise emit
the bare key; sort keys lexicographically ascending; join entries with
`&`; return the empty string for an empty query. -/
def specNormalizeQuery (raw : String) : String :=
  if raw = ("") then ("")
  else
    let mm := parseQs raw
    let entries := (sortKeys (mm.map Prod.fst)).map fun k =>
      let nonBlank := (multiLookup mm k).filter fun v => !(v == (""))
      if nonBlank.isEmpty then k
      else k ++ ("=") ++ String.intercalate (",") nonBlank
    String.intercalate ("&") entries

/-! ## URL parsing (Python `urllib.parse.urlparse`) -/

/-- Python exceptions that `PuduClient._request` can raise, and the httpx
status failure it converts.  `upstreamError status text` models
`RuntimeError(f"Pudu API error \x7bstatus\x7d: \x7btext\x7d")` raised from
`httpx.HTTPStatusError`: the f-string embeds the status code and the
response body text, so the constructor carries exactly those two fields. -/
inductive PyErr where
  | indexError
  | valueError (msg : String)
  | upstreamError (status : Nat) (text : String)
deriving DecidableEq

/-- Split at the last occurrence of `sep`, `none` when absent. -/
def rsplitLastChar (sep : Char) (l : List Char) : Option (List Char × List Char) :=
  match splitOnceChar sep l.reverse with
  | some (a, b) => some (b.reverse, a.reverse)
  | none => none

/-- ASCII lowercasing, as Python `str.lower()` on the ASCII scheme and
host names this client produces. -/
def pyLower (l : List Char) : List Char := l.map Char.toLower

/-- A character allowed after the first one in a URL scheme. -/
def isSchemeChar (c : Char) : Bool :=
  c.isAlpha || c.isDigit || c == '+' || c == '-' || c == '.'

/-- The result of `urlparse`: scheme, netloc, path, params, query,
fragment. -/
structure UrlParts where
  scheme : String
  netloc : String
  path : String
  params : String
  query : String
  fragment : String
deriving DecidableEq

/-- Models CPython `urllib.parse.urlsplit`: strip the unsafe bytes tab,
CR, LF anywhere in the URL; split off a valid `scheme:`; split off a
`//netloc` up to the first of `/?#`; then the fragment after the first
`#`; then the query after the first `?`.  CPython validates bracketed
(IPv6) hosts and raises `ValueError` for invalid ones; no claim involves
bracketed hosts, so a netloc containing `[` or `]` is conservatively
modelled as that `ValueError`. -/
def pyUrlsplit (url : String) : Except PyErr (List Char × List Char × List Char × List Char × List Char) :=
  let u0 := url.data.filter fun c => !(c == '\t' || c == '\r' || c == '\x0d' || c == '\n')
  let (scheme, u1) :=
    match splitOnceChar ':' u0 with
    | some (before, after) =>
      if before ≠ [] ∧ (before.headD (' ')).isAlpha ∧ (before.drop 1).all isSchemeChar then
        (pyLower before, after)
      else ([], u0)
    | none => ([], u0)
  let (netloc, u2) :=
    if u1.take 2 = ['/', '/'] then
      ((u1.drop 2).takeWhile fun c => !(c == '/' || c == '?' || c == '#'),
       (u1.drop 2).dropWhile fun c => !(c == '/' || c == '?' || c == '#'))
    else ([], u1)
  if netloc.contains '[' ∨ netloc.contains ']' then
    .error (.valueError ("Invalid IPv6 URL"))
  else
    let (u3, frag) :=
      match splitOnceChar '#' u2 with
      | some (a, b) => (a, b)
      | none => (u2, [])
    let (path, query) :=
      match splitOnceChar '?' u3 with
      | some (a, b) => (a, b)
      | none => (u3, [])
    .ok (scheme, netloc, path, query, frag)

/-- Models CPython `urllib.parse._splitparams`: split `;params` off the
last path segment (searching for `;` only from the last `/` on). -/
def pySplitParams (path : List Char) : List Char × List Char :=
  if path.contains '/' then
    match rsplitLastChar '/' path with
    | some (pre, lastSeg) =>
      match splitOnceChar ';' lastSeg with
      | some (a, b) => (pre ++ '/' :: a, b)
      | none => (path, [])
    | none => (path, [])
  else
    match splitOnceChar ';' path with
    | some (a, b) => (a, b)
    | none => (path, [])

/-- Models `urllib.parse.urlparse(url)`: `urlsplit` plus params
extraction from the path. -/
def pyUrlparse (url : String) : Except PyErr UrlParts :=
  match pyUrlsplit url with
  | .error e => .error e
  | .ok (scheme, netloc, path, query, frag) =>
    let (p, par) :=
      if path.contains ';' then pySplitParams path else (path, [])
    .ok { scheme := ⟨scheme⟩, netloc := ⟨netloc⟩, path := ⟨p⟩,
          params := ⟨par⟩, query := ⟨query⟩, fragment := ⟨frag⟩ }

/-- Models `url_info.hostname or ""` as used for the Host header: the
part of the netloc after the last `@`, before the first `:`, lowercased
(`hostname` is `None` for an empty host, and the caller folds that to
`""`; bracketed hosts were already rejected by the parse step). -/
def pyHostname (netloc : String) : String :=
  let afterAt :=
    match rsplitLastChar '@' netloc.data with
    | some (_, h) => h
    | none => netloc.data
  let host :=
    match splitOnceChar ':' afterAt with
    | some (h, _) => h
    | none => afterAt
  ⟨pyLower host⟩

/-! ## JSON values and compact serialization (Python `json.dumps` with
`separators=(",", ":")`, default `ensure_ascii=True`) -/

mutual

/-- A Python value serializable by `json.dumps`: dicts keep caller
insertion order (Python 3.7+ dict semantics, field order not re-sorted). -/
inductive PyJson where
  | null
  | bool (b : Bool)
  | int (n : Int)
  | str (s : String)
  | arr (xs : PyJsonList)
  | obj (kvs : PyJsonDict)

/-- A list of JSON values. -/
inductive PyJsonList where
  | nil
  | cons (head : PyJson) (tail : PyJsonList)

/-- An insertion-ordered string-keyed JSON dict. -/
inductive PyJsonDict where
  | nil
  | cons (key : String) (val : PyJson) (tail : PyJsonDict)

end

/-- Four lowercase hex digits, Python `"\\u%04x"`. -/
def hex4Chars (n : Nat) : List Char :=
  [hexDigitChar (n / 4096 % 16), hexDigitChar (n / 256 % 16),
   hexDigitChar (n / 16 % 16), hexDigitChar (n % 16)]

/-- One character of a JSON string under `ensure_ascii=True`: short
escapes for `"` `\\` and the five control shorthands, `\\uXXXX` (with
surrogate pairs above the BMP) for other controls and all non-ASCII,
literal otherwise. -/
def jsonEscapeChar (c : Char) : List Char :=
  let n := c.toNat
  if c = '"' then ['\\', '"']
  else if c = '\\' then ['\\', '\\']
  else if n = 8 then ['\\', 'b']
  else if n = 9 then ['\\', 't']
  else if n = 10 then ['\\', 'n']
  else if n = 12 then ['\\', 'f']
  else if n = 13 then ['\\', 'r']
  else if n < 32 ∨ 126 < n then
    if n < 65536 then '\\' :: 'u' :: hex4Chars n
    else ('\\' :: 'u' :: hex4Chars (55296 + (n - 65536) / 1024)) ++
         ('\\' :: 'u' :: hex4Chars (56320 + (n - 65536) % 1024))
  else [c]

/-- A JSON string literal with its quotes, Python `encode_basestring_ascii`. -/
def jsonQuote (s : String) : String :=
  ⟨'"' :: s.data.flatMap jsonEscapeChar ++ ['"']⟩

mutual

/-- Models `json.dumps(v, separators=(",", ":"))`: compact JSON, no
inserted whitespace, dict fields in caller order. -/
def pyDumps : PyJson → String
  | .null => ("null")
  | .bool true => ("true")
  | .bool false => ("false")
  | .int n => toString n
  | .str s => jsonQuote s
  | .arr xs => ("[") ++ String.intercalate (",") (pyDumpsList xs) ++ ("]")
  | .obj kvs => ("\x7b") ++ String.intercalate (",") (pyDumpsDict kvs) ++ ("\x7d")

/-- Serialized elements of a JSON array. -/
def pyDumpsList : PyJsonList → List String
  | .nil => []
  | .cons x xs => pyDumps x :: pyDumpsList xs

/-- Serialized `"key":value` fields of a JSON dict, in insertion order. -/
def pyDumpsDict : PyJsonDict → List String
  | .nil => []
  | .cons k v kvs => (jsonQuote k ++ (":") ++ pyDumps v) :: pyDumpsDict kvs

end

/-! ## The client (`PuduClient.__init__`, `close` not modelled: it only
releases the httpx pool) -/

/-- The credential state of a `PuduClient` instance: the attributes
`__init__` assigns to `self` (the httpx client handle carries no
credential data and is omitted). -/
structure PuduClient where
  api_key : String
  api_secret : String
  base_url : String
deriving DecidableEq

/-- Models `base_url.rstrip("/")`: drop trailing slashes. -/
def pyRstripSlash (s : String) : String :=
  ⟨(s.data.reverse.dropWhile fun c => c == '/').reverse⟩

/-- Models `PuduClient.__init__` (src/pudu_client.py lines 23-34):
`ValueError` when any of the three credentials is empty (Python string
truthiness), else store them with the base URL right-stripped of `/`. -/
def PuduClient.init (api_key api_secret base_url : String) : Except PyErr PuduClient :=
  if api_key = ("") ∨ api_secret = ("") ∨ base_url = ("") then
    .error (.valueError ("PuduClient requires api_key, api_secret and base_url"))
  else
    .ok { api_key := api_key, api_secret := api_secret,
          base_url := pyRstripSlash base_url }

/-! ## The signed request pipeline (`PuduClient._request`) -/

/-- Models `str.upper()` on the method name (ASCII uppercase; all
methods this client passes are ASCII). -/
def pyUpper (s : String) : String := ⟨s.data.map Char.toUpper⟩

/-- Models lines 299-301 of `_request`:
`if path.startswith(("/release", "/test", "/prepub")):` is a *string
prefix* test (not a whole-segment match), and then
`path = "/" + path[1:].split("/", 1)[1]` keeps what follows the first
`/` of `path[1:]`.  `none` models the `IndexError` raised by the `[1]`
index when `path[1:]` contains no `/` at all. -/
def stripForSigning (path : String) : Option String :=
  if ("/release").data.isPrefixOf path.data ∨ ("/test").data.isPrefixOf path.data ∨
      ("/prepub").data.isPrefixOf path.data then
    match splitOnceChar '/' (path.data.drop 1) with
    | some (_, rest) => some ⟨'/' :: rest⟩
    | none => none
  else some path

/-- Everything `_request` computes before dispatching: the signing-side
values (normalized path, content digest, signing string, signature) and
the wire-side values (headers, body bytes, and the URL actually sent). -/
structure Prepared where
  method : String
  host : String
  signingPath : String
  bodyJson : String
  contentMd5 : String
  xDate : String
  signingStr : String
  authorization : String
  headers : List (String × String)
  dispatchUrl : String
deriving DecidableEq

/-- The successful-parse body of `_request` (lines 292-356): given the
parsed URL and the already-stripped signing path, compute the normalized
signing path with query, the content digest (POST only), the six-line
signing string, the HMAC-SHA1 Authorization header, and the header map
(plus the optional unsigned `Language` header). -/
def mkPrepared (c : PuduClient) (m0 url : String) (body : Option PyJson)
    (language : Option String) (xDate : String) (parts : UrlParts)
    (path0 : String) : Prepared :=
  let m := pyUpper m0
  let bodyVal := body.getD (PyJson.obj PyJsonDict.nil)
  let path :=
    if parts.query == ("") then path0
    else
      let nq := normalizeQuery (pyUnquote parts.query)
      if nq == ("") then path0 else path0 ++ ("?") ++ nq
  let bm :=
    if m == ("POST") then
      let bj := pyDumps bodyVal
      (bj, b64Encode (strBytes (md5Hex (strBytes bj))))
    else ((""), (""))
  let signingStr := String.intercalate ("\n")
    [("x-date: ") ++ xDate, m, ("application/json"), ("application/json"),
     bm.2, path]
  let sigB64 := b64Encode (hmacSha1 (strBytes c.api_secret) (strBytes signingStr))
  let authorization := ("hmac id=\"") ++ c.api_key ++
    ("\", algorithm=\"hmac-sha1\", headers=\"x-date\", signature=\"") ++
    sigB64 ++ ("\"")
  let host := pyHostname parts.netloc
  let headers :=
    [(("Host"), host), (("Accept"), ("application/json")),
     (("Content-Type"), ("application/json")), (("x-date"), xDate),
     (("Authorization"), authorization)] ++
    (match language with
     | some l => if l == ("") then [] else [(("Language"), l)]
     | none => [])
  { method := m, host := host, signingPath := path, bodyJson := bm.1,
    contentMd5 := bm.2, xDate := xDate, signingStr := signingStr,
    authorization := authorization, headers := headers, dispatchUrl := url }

/-- Models `_request` up to (not including) the network dispatch:
parse the URL, default an empty path to `/`, strip the environment
marker for signing (possibly raising `IndexError`), then build the
signed request.  The timestamp argument models `datetime.utcnow()`
formatted as `%a, %d %b %Y %H:%M:%S GMT`. -/
def prepareRequest (c : PuduClient) (method url : String) (body : Option PyJson)
    (language : Option String) (xDate : String) : Except PyErr Prepared :=
  match pyUrlparse url with
  | .error e => .error e
  | .ok parts =>
    let path1 := if parts.path == ("") then ("/") else parts.path
    match stripForSigning path1 with
    | none => .error PyErr.indexError
    | some path0 => .ok (mkPrepared c method url body language xDate parts path0)

/-- The network call `_request` makes: `self._client.get(url, headers)`
or `self._client.post(url, headers, content=body_json)`. -/
inductive DispatchCall where
  | get (url : String) (headers : List (String × String))
  | post (url : String) (headers : List (String × String)) (content : String)
deriving DecidableEq

/-- The URL a dispatch call targets. -/
def DispatchCall.url : DispatchCall → String
  | .get u _ => u
  | .post u _ _ => u

/-- Models lines 358-363: GET and POST dispatch on the *original* `url`;
any other (already upper-cased) method raises `ValueError`. -/
def dispatchOf (pr : Prepared) : Except PyErr DispatchCall :=
  if pr.method == ("GET") then .ok (.get pr.dispatchUrl pr.headers)
  else if pr.method == ("POST") then .ok (.post pr.dispatchUrl pr.headers pr.bodyJson)
  else .error (.valueError (("Unsupported HTTP method: ") ++ pr.method))

/-- The observable part of an httpx response: status code, body text,
and `resp.json()` modelled as `some` parsed value or `none` when JSON
parsing raises `ValueError`. -/
structure HttpResponse where
  statusCode : Nat
  text : String
  jsonVal : Option PyJson

/-- Models lines 365-375: `resp.raise_for_status()` raises
`httpx.HTTPStatusError` for every non-2xx status (httpx `is_success` is
`200 <= status < 300`), which `_request` re-raises as the upstream
`RuntimeError` carrying status and body text; on 2xx, `resp.json()`, or
the `\x7b"raw": text, "status_code": status\x7d` fallback when the body
is not valid JSON. -/
def handleResponse (resp : HttpResponse) : Except PyErr PyJson :=
  if 200 ≤ resp.statusCode ∧ resp.statusCode < 300 then
    match resp.jsonVal with
    | some v => .ok v
    | none =>
      .ok (PyJson.obj (.cons ("raw") (PyJson.str resp.text)
        (.cons ("status_code") (PyJson.int (Int.ofNat resp.statusCode)) .nil)))
  else .error (.upstreamError resp.statusCode resp.text)

/-- The whole of `_request`, with the response as an oracle for the
dispatched call.  The `PuduClient` in the result is the state of `self`
after the call: `_request` assigns to no attribute of `self`, so it is
returned as it came in (this embeds the mutation frame of the method). -/
def pyRequest (c : PuduClient) (method url : String) (body : Option PyJson)
    (language : Option String) (xDate : String) (resp : HttpResponse) :
    Except PyErr (PyJson × PuduClient) :=
  match prepareRequest c method url body language xDate with
  | .error e => .error e
  | .ok pr =>
    match dispatchOf pr with
    | .error e => .error e
    | .ok _ =>
      match handleResponse resp with
      | .error e => .error e
      | .ok v => .ok (v, c)

/-! ## Helper lemmas -/

/-- A successful `prepareRequest` is exactly a successful parse, a
successful strip, and the `mkPrepared` record. -/
theorem prepareRequest_eq_ok {c : PuduClient} {m url : String} {b : Option PyJson}
    {l : Option String} {d : String} {pr : Prepared}
    (h : prepareRequest c m url b l d = Except.ok pr) :
    ∃ parts path0, pyUrlparse url = Except.ok parts ∧
      stripForSigning (if parts.path == ("") then ("/") else parts.path) = some path0 ∧
      pr = mkPrepared c m url b l d parts path0 := by
  unfold prepareRequest at h
  rcases hu : pyUrlparse url with e | parts
  · rw [hu] at h
    exact absurd h (by simp)
  · rw [hu] at h
    dsimp only at h
    rcases hs : stripForSigning (if parts.path == ("") then ("/") else parts.path)
      with _ | path0
  
    · rw [hs] at h
      exact absurd h (by simp)
    · rw [hs] at h
      refine ⟨parts, path0, rfl, hs, ?_⟩
      injection h with h
      exact h.symm

/-- The content digest field of `mkPrepared`, branch-free form. -/
theorem mkPrepared_contentMd5 (c : PuduClient) (m url : String) (b : Option PyJson)
    (l : Option String) (d : String) (parts : UrlParts) (p0 : String) :
    (mkPrepared c m url b l d parts p0).contentMd5 =
      if pyUpper m == ("POST") then
        b64Encode (strBytes (md5Hex (strBytes
          (pyDumps (b.getD (PyJson.obj PyJsonDict.nil))))))
      else ("") := by
  unfold mkPrepared
  cases hb : (pyUpper m == ("POST")) <;> simp [hb]

/-- `charUtf8` never returns the empty byte string. -/
theorem charUtf8_ne_nil (c : Char) : charUtf8 c ≠ [] := by
  unfold charUtf8
  dsimp only
  by_cases h1 : c.toNat < 128
  · simp [h1]
  · by_cases h2 : c.toNat < 2048
    · simp [h1, h2]
    · by_cases h3 : c.toNat < 65536
      · simp [h1, h2, h3]
      · simp [h1, h2, h3]

/-- `strBytes` of a string with at least one character is non-empty. -/
theorem strBytes_ne_nil {s : String} (h : s.data ≠ []) : strBytes s ≠ [] := by
  unfold strBytes
  rcases hm : s.data with _ | ⟨c, cs⟩
  · exact absurd hm h
  · simp [List.flatMap_cons, List.append_eq_nil, charUtf8_ne_nil c]

/-- `b64Chars` of a non-empty byte string is non-empty. -/
theorem b64Chars_ne_nil {bs : List Nat} (h : bs ≠ []) : b64Chars bs ≠ [] := by
  match bs with
  | [] => exact absurd rfl h
  | [b1] => simp [b64Chars]
  | [b1, b2] => simp [b64Chars]
  | b1 :: b2 :: b3 :: rest => simp [b64Chars]

/-- The raw MD5 digest is never empty (it always has 16 bytes). -/
theorem md5Bytes_ne_nil (msg : List Nat) : md5Bytes msg ≠ [] := by
  unfold md5Bytes le4
  simp

/-- The hex MD5 digest always has characters. -/
theorem md5Hex_data_ne_nil (msg : List Nat) : (md5Hex msg).data ≠ [] := by
  have hb : ∃ x xs, md5Bytes msg = x :: xs := by
    rcases h : md5Bytes msg with _ | ⟨x, xs⟩
    · exact absurd h (md5Bytes_ne_nil msg)
    · exact ⟨x, xs, rfl⟩
  rcases hb with ⟨x, xs, hb⟩
  show (md5Bytes msg).flatMap byteHexChars ≠ []
  rw [hb]
  simp [byteHexChars]

/-- The full POST content digest is never the empty string, whatever the
serialized body was. -/
theorem contentDigest_ne_empty (s : String) :
    b64Encode (strBytes (md5Hex (strBytes s))) ≠ ("") := by
  intro h
  have hd : b64Chars (strBytes (md5Hex (strBytes s))) = [] := congrArg String.data h
  exact b64Chars_ne_nil (strBytes_ne_nil (md5Hex_data_ne_nil _)) hd

/-! ## Claim theorems -/

/-- C1: `_normalize_query` returns `""` on the empty query, and otherwise
parses the query into a multimap preserving all values per key (blank
ones included), drops blank values per key, joins the surviving values
with commas in their original relative order as `key=v1,v2,...`, emits
the bare key without `=` when every value was blank, sorts keys
lexicographically ascending, and joins the entries with `&` — stated as
agreement with the spec-worded normalizer on every raw query string plus
the four concrete examples. -/
theorem normalizeQuery_meets_spec :
    (∀ q : String, normalizeQuery q = specNormalizeQuery q) ∧
    normalizeQuery ("b=2&a=1&a=") = ("a=1&b=2") ∧
    normalizeQuery ("c=1&c=2") = ("c=1,2") ∧
    normalizeQuery ("d=") = ("d") ∧
    normalizeQuery ("") = ("") := by
  refine ⟨fun q => ?_, by decide, by decide, by decide, rfl⟩
  by_cases hq : q = ("")
  · rw [hq]
    rfl
  · unfold normalizeQuery specNormalizeQuery
    rw [if_neg hq, if_neg hq]
    dsimp only
    congr 1
    refine List.map_congr_left fun key _ => ?_
    cases h : ((multiLookup (parseQs q) key).filter fun v => !(v == (""))).isEmpty <;>
      simp [h]

/-- C4 as stated is false: the environment-marker test is
`path.startswith(("/release", "/test", "/prepub"))`, a string-prefix
test, so `/releasenotes/x` — whose first segment only *begins* with a
marker — is not left unchanged but stripped to `/x`. -/
theorem stripForSigning_counterexample :
    stripForSigning ("/releasenotes/x") = some ("/x") ∧
    stripForSigning ("/releasenotes/x") ≠ some ("/releasenotes/x") := by
  exact ⟨by decide, by decide⟩

/-- C4 amended: the path used for signing has everything up to and
including the first `/` of `path[1:]` replaced by `/` if and only if the
path begins (as a raw string prefix, not a whole first segment) with one
of `/release`, `/test`, `/prepub`; in particular
`/release/open-platform-service/v1/x` yields `/open-platform-service/v1/x`
and `/releasenotes/x` yields `/x`, while a path not starting with any
marker is unchanged. -/
theorem stripForSigning_amended :
    (∀ rest : String,
      stripForSigning (("/release/") ++ rest) = some (("/") ++ rest) ∧
      stripForSigning (("/test/") ++ rest) = some (("/") ++ rest) ∧
      stripForSigning (("/prepub/") ++ rest) = some (("/") ++ rest)) ∧
    (∀ p : String,
      ¬(("/release").data.isPrefixOf p.data ∨ ("/test").data.isPrefixOf p.data ∨
        ("/prepub").data.isPrefixOf p.data) →
      stripForSigning p = some p) ∧
    stripForSigning ("/releasenotes/x") = some ("/x") ∧
    stripForSigning ("/release/open-platform-service/v1/x") =
      some ("/open-platform-service/v1/x") := by
  refine ⟨fun rest => ⟨rfl, rfl, rfl⟩, fun p h => ?_, by decide, by decide⟩
  unfold stripForSigning
  rw [if_neg h]

/-- Witness for the amended C4 theorem at concrete inputs: a path whose
first segment matches no marker, and a marker path with a tail. -/
theorem stripForSigning_amended_witness :
    stripForSigning ("/open-platform-service/v1/recharge") =
      some ("/open-platform-service/v1/recharge") ∧
    stripForSigning (("/test/") ++ ("v1")) = some (("/") ++ ("v1")) :=
  ⟨stripForSigning_amended.2.1 ("/open-platform-service/v1/recharge") (by decide),
   (stripForSigning_amended.1 ("v1")).2.1⟩

/-- C10: the environment-prefix stripping is not total — for a URL whose
path is exactly `/release`, the expression `path[1:].split("/", 1)[1]`
indexes a second element that does not exist, so `_request` raises
`IndexError` before any signing or dispatch occurs (the result is the
error for every client, body, language, timestamp and response). -/
theorem release_path_index_error :
    stripForSigning ("/release") = none ∧
    (∀ (c : PuduClient) (b : Option PyJson) (l : Option String) (d : String),
      prepareRequest c ("GET")
        ("https://csg-open-platform.pudutech.com/release") b l d =
        Except.error PyErr.indexError) ∧
    (∀ (c : PuduClient) (b : Option PyJson) (l : Option String) (d : String)
      (resp : HttpResponse),
      pyRequest c ("GET") ("https://csg-open-platform.pudutech.com/release")
        b l d resp = Except.error PyErr.indexError) := by
  exact ⟨by decide, fun c b l d => rfl, fun c b l d resp => rfl⟩

/-- C2: the content digest of the signing string is `""` when the
(upper-cased) method is GET and, when it is POST, equals the base64
encoding of the ASCII bytes of the lowercase-hex MD5 digest of the
compact JSON serialization of the body (hex-then-base64, not base64 of
the raw 16 digest bytes); a POST with the empty dict still yields a
non-empty digest, and the digest is non-empty exactly when the method is
POST.  The concrete vectors pin the double encoding down. -/
theorem content_digest_spec :
    (∀ (c : PuduClient) (m url : String) (b : Option PyJson) (l : Option String)
      (d : String) (pr : Prepared), prepareRequest c m url b l d = Except.ok pr →
      (pyUpper m = ("GET") → pr.contentMd5 = ("")) ∧
      (pyUpper m = ("POST") → pr.contentMd5 =
        b64Encode (strBytes (md5Hex (strBytes
          (pyDumps (b.getD (PyJson.obj PyJsonDict.nil))))))) ∧
      (pr.contentMd5 ≠ ("") ↔ pyUpper m = ("POST"))) ∧
    pyDumps (PyJson.obj PyJsonDict.nil) = ("\x7b\x7d") ∧
    b64Encode (strBytes (md5Hex (strBytes (pyDumps (PyJson.obj PyJsonDict.nil))))) =
      ("OTk5MTRiOTMyYmQzN2E1MGI5ODNjNWU3YzkwYWU5M2I=") ∧
    pyDumps (PyJson.obj (.cons ("a") (PyJson.int 1) .nil)) = ("\x7b\"a\":1\x7d") ∧
    b64Encode (strBytes (md5Hex (strBytes
      (pyDumps (PyJson.obj (.cons ("a") (PyJson.int 1) .nil)))))) =
      ("YmI2Y2I1YzY4ZGY0NjUyOTQxY2FmNjUyYTM2NmYyZDg=") ∧
    b64Encode (strBytes (md5Hex (strBytes (pyDumps (PyJson.obj PyJsonDict.nil))))) ≠
      b64Encode (md5Bytes (strBytes (pyDumps (PyJson.obj PyJsonDict.nil)))) := by
  refine ⟨?_, by decide, by decide, by decide, by decide, by decide⟩
  intro c m url b l d pr h
  obtain ⟨parts, path0, hu, hs, hpr⟩ := prepareRequest_eq_ok h
  subst hpr
  rw [mkPrepared_contentMd5]
  refine ⟨fun hg => ?_, fun hp => ?_, ?_⟩
  · rw [hg]
    rfl
  · rw [hp]
    rfl
  · cases hb : (pyUpper m == ("POST"))
    · rw [if_neg (by simp)]
      exact iff_of_false (by simp) (fun he => by simp [he] at hb)
    · rw [if_pos rfl]
      exact iff_of_true (contentDigest_ne_empty _) (eq_of_beq hb)

/-- Witness for C2 at a concrete POST request. -/
theorem content_digest_spec_witness :
    ∃ pr : Prepared,
      prepareRequest ⟨("k"), ("s"), ("https://h")⟩ ("POST") ("https://h/p")
        none none ("D") = Except.ok pr ∧
      (pr.contentMd5 ≠ ("") ↔ pyUpper ("POST") = ("POST")) :=
  ⟨_, rfl, (content_digest_spec.1 ⟨("k"), ("s"), ("https://h")⟩ ("POST")
    ("https://h/p") none none ("D") _ rfl).2.2⟩

/-- C3: the string that is HMAC-SHA1-signed is exactly the `"\n"`-join of
the six components `x-date: <date>`, the upper-cased method,
`application/json` (Accept), `application/json` (Content-Type), the
content digest (possibly empty), and the canonical path-and-query; and
it is identical for any two locale arguments, so the optional locale
never enters the signing string. -/
theorem signing_string_six_lines :
    ∀ (c : PuduClient) (m url : String) (b : Option PyJson) (l1 l2 : Option String)
      (d : String),
      (prepareRequest c m url b l1 d).map Prepared.signingStr =
        (prepareRequest c m url b l2 d).map Prepared.signingStr ∧
      ∀ pr, prepareRequest c m url b l1 d = Except.ok pr →
        pr.signingStr = String.intercalate ("\n")
          [("x-date: ") ++ d, pyUpper m, ("application/json"),
           ("application/json"), pr.contentMd5, pr.signingPath] := by
  intro c m url b l1 l2 d
  constructor
  · unfold prepareRequest
    rcases pyUrlparse url with e | parts
    · rfl
    · dsimp only
      rcases stripForSigning (if parts.path == ("") then ("/") else parts.path)
        with _ | p0
      · rfl
      · rfl
  · intro pr h
    obtain ⟨parts, path0, hu, hs, hpr⟩ := prepareRequest_eq_ok h
    subst hpr
    rfl

/-- Witness for C3 at a concrete GET request with a query, comparing a
supplied locale against none. -/
theorem signing_string_six_lines_witness :
    ∃ pr : Prepared,
      prepareRequest ⟨("k"), ("s"), ("https://h")⟩ ("GET") ("https://h/p?x=1")
        none none ("D") = Except.ok pr ∧
      pr.signingStr = String.intercalate ("\n")
        [("x-date: ") ++ ("D"), pyUpper ("GET"), ("application/json"),
         ("application/json"), pr.contentMd5, pr.signingPath] :=
  ⟨_, rfl, (signing_string_six_lines ⟨("k"), ("s"), ("https://h")⟩ ("GET")
    ("https://h/p?x=1") none none (some ("en")) ("D")).2 _ rfl⟩

/-- C5: the URL handed to the network dispatch is the original URL the
caller built — neither the environment-prefix stripping nor the query
canonicalization (both only feed the signature) alters it. -/
theorem dispatch_uses_original_url :
    ∀ (c : PuduClient) (m url : String) (b : Option PyJson) (l : Option String)
      (d : String) (pr : Prepared), prepareRequest c m url b l d = Except.ok pr →
      pr.dispatchUrl = url ∧
      ∀ call, dispatchOf pr = Except.ok call → call.url = url := by
  intro c m url b l d pr h
  obtain ⟨parts, path0, hu, hs, hpr⟩ := prepareRequest_eq_ok h
  subst hpr
  refine ⟨rfl, ?_⟩
  intro call hc
  unfold dispatchOf at hc
  split at hc
  · injection hc with hc
    rw [← hc]
    rfl
  · split at hc
    · injection hc with hc
      rw [← hc]
      rfl
    · exact absurd hc (by simp)

/-- Witness for C5 at a concrete GET request whose signing path differs
from the dispatched URL (environment prefix and query both normalized
away for signing). -/
theorem dispatch_uses_original_url_witness :
    ∃ pr : Prepared,
      prepareRequest ⟨("k"), ("s"), ("https://h")⟩ ("GET")
        ("https://h/release/x/y?b=1&a=") none none ("D") = Except.ok pr ∧
      pr.dispatchUrl = ("https://h/release/x/y?b=1&a=") :=
  ⟨_, rfl, (dispatch_uses_original_url ⟨("k"), ("s"), ("https://h")⟩ ("GET")
    ("https://h/release/x/y?b=1&a=") none none ("D") _ rfl).1⟩

/-- C6: when the response status is not 2xx, `_request` fails with the
upstream error carrying both the status code and the response body text
— the error is returned to the caller (never swallowed) and no parsed
result is produced. -/
theorem non2xx_upstream_error :
    ∀ (c : PuduClient) (m url : String) (b : Option PyJson) (l : Option String)
      (d : String) (resp : HttpResponse) (pr : Prepared),
      prepareRequest c m url b l d = Except.ok pr →
      (pyUpper m = ("GET") ∨ pyUpper m = ("POST")) →
      ¬(200 ≤ resp.statusCode ∧ resp.statusCode < 300) →
      pyRequest c m url b l d resp =
        Except.error (PyErr.upstreamError resp.statusCode resp.text) := by
  intro c m url b l d resp pr h hm hst
  obtain ⟨parts, path0, hu, hs, hpr⟩ := prepareRequest_eq_ok h
  have hmethod : pr.method = pyUpper m := by
    rw [hpr]
    rfl
  have hd : ∃ call, dispatchOf pr = Except.ok call := by
    unfold dispatchOf
    rcases hm with hg | hp
    · rw [hmethod, hg]
      exact ⟨_, rfl⟩
    · rw [hmethod, hp]
      exact ⟨_, rfl⟩
  obtain ⟨call, hcall⟩ := hd
  unfold pyRequest
  rw [h]
  dsimp only
  rw [hcall]
  dsimp only
  unfold handleResponse
  rw [if_neg hst]

/-- Witness for C6: a concrete GET answered with a 404. -/
theorem non2xx_upstream_error_witness :
    pyRequest ⟨("k"), ("s"), ("https://h")⟩ ("GET") ("https://h/p") none none ("D")
      ⟨404, ("not found"), none⟩ =
      Except.error (PyErr.upstreamError 404 ("not found")) :=
  non2xx_upstream_error ⟨("k"), ("s"), ("https://h")⟩ ("GET") ("https://h/p")
    none none ("D") ⟨404, ("not found"), none⟩ _ rfl (Or.inl rfl) (by decide)

/-- C7: a 2xx response whose body is not valid JSON does not fail —
`_request` returns the fallback dict with the raw body text and the
status code instead of a parsed value. -/
theorem decode_fallback :
    ∀ (c : PuduClient) (m url : String) (b : Option PyJson) (l : Option String)
      (d : String) (resp : HttpResponse) (pr : Prepared),
      prepareRequest c m url b l d = Except.ok pr →
      (pyUpper m = ("GET") ∨ pyUpper m = ("POST")) →
      (200 ≤ resp.statusCode ∧ resp.statusCode < 300) →
      resp.jsonVal = none →
      pyRequest c m url b l d resp = Except.ok
        (PyJson.obj (.cons ("raw") (PyJson.str resp.text)
          (.cons ("status_code") (PyJson.int (Int.ofNat resp.statusCode)) .nil)),
          c) := by
  intro c m url b l d resp pr h hm hst hj
  obtain ⟨parts, path0, hu, hs, hpr⟩ := prepareRequest_eq_ok h
  have hmethod : pr.method = pyUpper m := by
    rw [hpr]
    rfl
  have hd : ∃ call, dispatchOf pr = Except.ok call := by
    unfold dispatchOf
    rcases hm with hg | hp
    · rw [hmethod, hg]
      exact ⟨_, rfl⟩
    · rw [hmethod, hp]
      exact ⟨_, rfl⟩
  obtain ⟨call, hcall⟩ := hd
  unfold pyRequest
  rw [h]
  dsimp only
  rw [hcall]
  dsimp only
  unfold handleResponse
  rw [if_pos hst, hj]

/-- Witness for C7: a concrete GET answered 200 with a non-JSON body. -/
theorem decode_fallback_witness :
    pyRequest ⟨("k"), ("s"), ("https://h")⟩ ("GET") ("https://h/p") none none ("D")
      ⟨200, ("oops"), none⟩ =
      Except.ok (PyJson.obj (.cons ("raw") (PyJson.str ("oops"))
        (.cons ("status_code") (PyJson.int (Int.ofNat 200)) .nil)),
        ⟨("k"), ("s"), ("https://h")⟩) :=
  decode_fallback ⟨("k"), ("s"), ("https://h")⟩ ("GET") ("https://h/p") none none
    ("D") ⟨200, ("oops"), none⟩ _ rfl (Or.inl rfl) (by decide) rfl

/-- C8: construction fails exactly when one of api_key, api_secret,
base_url is empty; on success the credentials are stored (the base URL
right-stripped of `/` as the constructor does); and no request ever
mutates the stored client state. -/
theorem init_validates_and_never_mutates :
    ∀ k s u : String,
      ((∃ c, PuduClient.init k s u = Except.ok c) ↔
        (k ≠ ("") ∧ s ≠ ("") ∧ u ≠ (""))) ∧
      (∀ c, PuduClient.init k s u = Except.ok c →
        c.api_key = k ∧ c.api_secret = s ∧ c.base_url = pyRstripSlash u) ∧
      (∀ (c : PuduClient) (m url : String) (b : Option PyJson) (l : Option String)
        (d : String) (resp : HttpResponse) (v : PyJson) (c' : PuduClient),
        pyRequest c m url b l d resp = Except.ok (v, c') → c' = c) := by
  intro k s u
  refine ⟨⟨?_, ?_⟩, ?_, ?_⟩
  · rintro ⟨c, hc⟩
    unfold PuduClient.init at hc
    by_cases hk : k = ("") ∨ s = ("") ∨ u = ("")
    · rw [if_pos hk] at hc
      exact absurd hc (by simp)
    · push_neg at hk
      exact hk
  · rintro ⟨hk, hs, hu⟩
    exact ⟨_, by unfold PuduClient.init; rw [if_neg (by simp [hk, hs, hu])]⟩
  · intro c hc
    unfold PuduClient.init at hc
    split at hc
    · exact absurd hc (by simp)
    · injection hc with hc
      rw [← hc]
      exact ⟨rfl, rfl, rfl⟩
  · intro c m url b l d resp v c' h
    unfold pyRequest at h
    split at h
    · exact absurd h (by simp)
    · split at h
      · exact absurd h (by simp)
      · split at h
        · exact absurd h (by simp)
        · injection h with h
          exact (congrArg Prod.snd h).symm

/-- Witness for C8: a concrete successful construction (note the
stripped trailing slash) and a concrete non-mutating request. -/
theorem init_validates_witness :
    (∃ c, PuduClient.init ("k") ("s") ("https://h/") = Except.ok c ∧
      c.api_key = ("k") ∧ c.api_secret = ("s") ∧
      c.base_url = pyRstripSlash ("https://h/")) ∧
    (⟨("k"), ("s"), ("https://h")⟩ : PuduClient) = ⟨("k"), ("s"), ("https://h")⟩ :=
  ⟨⟨⟨("k"), ("s"), ("https://h")⟩, rfl,
    (init_validates_and_never_mutates ("k") ("s") ("https://h/")).2.1 _ rfl⟩,
   (init_validates_and_never_mutates ("k") ("s") ("https://h/")).2.2
     ⟨("k"), ("s"), ("https://h")⟩ ("GET") ("https://h/p") none none ("D")
     ⟨200, ("oops"), none⟩ _ _ rfl⟩

/-- C9: signing is deterministic — for a fixed timestamp, method, URL
(path and query), body and credentials (key and secret), the
Authorization header that `_request` computes is the same, whatever the
rest of the client state (base URL) or the locale argument is, and in
particular across repeated runs on equal inputs. -/
theorem signing_deterministic :
    ∀ (c1 c2 : PuduClient) (m url : String) (b : Option PyJson)
      (l1 l2 : Option String) (d : String),
      c1.api_key = c2.api_key → c1.api_secret = c2.api_secret →
      (prepareRequest c1 m url b l1 d).map Prepared.authorization =
        (prepareRequest c2 m url b l2 d).map Prepared.authorization := by
  intro c1 c2 m url b l1 l2 d h1 h2
  unfold prepareRequest
  rcases pyUrlparse url with e | parts
  · rfl
  · dsimp only
    rcases stripForSigning (if parts.path == ("") then ("/") else parts.path)
      with _ | p0
    · rfl
    · dsimp only
      unfold mkPrepared
      dsimp only
      rw [h1, h2]
      rfl

/-- Witness for C9: two clients differing only in base URL, one with a
locale and one without, produce the same Authorization header for the
same GET request and timestamp. -/
theorem signing_deterministic_witness :
    (prepareRequest ⟨("k"), ("s"), ("https://a")⟩ ("GET") ("https://h/p") none
        none ("D")).map Prepared.authorization =
      (prepareRequest ⟨("k"), ("s"), ("https://b")⟩ ("GET") ("https://h/p") none
        (some ("en")) ("D")).map Prepared.authorization :=
  signing_deterministic _ _ _ _ _ _ _ _ rfl rfl
